import Mathlib

/-!
Shallow embedding of the promise library in `main.go` (package `main` of
code-madhur/go-promise).

Modelling conventions:
* A Go `error` interface value is `Option String`: `none` is the nil error,
  `some msg` a non-nil error whose `Error()` message is `msg`.
* A Go `interface{}` value is `GoValue`; the `promV` constructor inlines the
  five fields of a `*Promise` so that a promise can be stored inside a value
  (as in `resolve`'s flattening) without mutual induction.
* Each one-slot buffered channel is an `Option` cell: `none` empty, `some x`
  one buffered item.  A channel receive that would block forever, or a send
  on a full one-slot channel, makes the whole operation return `none`
  (the goroutine is stuck), so fallible/blocking operations live in `Option`.
* The goroutine interleavings exercised by the claims are sequential: each
  promise in a chain is settled before its consumer reads, so running an
  executor to completion inside `New` and evaluating `Then`/`Catch`/
  `Finally`/`Await` as functions of the parent's settled channel state is
  faithful.  In every reachable state at most one of the two channels is
  nonempty, so the `select` statements are deterministic; each model
  function checks the channels in the order its own `select` lists them.
* Mutation of a promise is explicit state passing: operations return the
  updated promise.  `Then`/`Catch`/`Finally` return the updated parent
  together with the freshly constructed child promise.
-/

/-- Promise state constant `PENDING = 0` (main.go line 11). -/
def PENDING : Nat := 0

/-- Promise state constant `FULFILLED = 1` (main.go line 12). -/
def FULFILLED : Nat := 1

/-- Promise state constant `REJECTED = 2` (main.go line 13). -/
def REJECTED : Nat := 2

/-- Go `error` interface values: `none` is nil, `some msg` a non-nil error. -/
abbrev GoError := Option String

/-- Go `interface\x7b\x7d` values as they occur in this program: nil, ints,
strings, and `*Promise` values (the promise's five fields inlined). -/
inductive GoValue where
  | nilV : GoValue
  | intV : Int → GoValue
  | strV : String → GoValue
  | promV : Nat → Option GoValue → Option GoError → GoValue → GoError → GoValue

/-- The `Promise` struct (main.go lines 17-25), minus the `executor` field,
which is consumed once by `New` and modelled as an argument there. -/
structure Promise where
  state : Nat
  resolveChannel : Option GoValue
  rejectChannel : Option GoError
  result : GoValue
  err : GoError

/-- Whether a Go value is a `*Promise` (matches the `case *Promise` arm of
the type switch in `resolve`, main.go line 97). -/
def GoValue.isPromise : GoValue → Bool
  | .promV _ _ _ _ _ => true
  | _ => false

/-- Storing a `*Promise` into an `interface\x7b\x7d` value. -/
def Promise.toValue (p : Promise) : GoValue :=
  .promV p.state p.resolveChannel p.rejectChannel p.result p.err

/-- `Await` (main.go lines 159-167): `select` on the two channels
(`resolveChannel` listed first), store the winning value into
`result`/`err`, and return `(promise.result, promise.err)`.  Returns the
pair together with the mutated promise; `none` when both channels are
empty (the select blocks forever). -/
def Promise.Await (promise : Promise) : Option ((GoValue × GoError) × Promise) :=
  match promise.resolveChannel with
  | some result =>
      let p := { promise with resolveChannel := none, result := result }
      some ((p.result, p.err), p)
  | none =>
      match promise.rejectChannel with
      | some err =>
          let p := { promise with rejectChannel := none, err := err }
          some ((p.result, p.err), p)
      | none => none

/-- `reject` (main.go lines 69-76): no-op unless `state == PENDING`;
otherwise set `state = REJECTED` and send `err` on `rejectChannel`.
`none` when the one-slot channel is already full (the send blocks). -/
def Promise.reject (promise : Promise) (err : GoError) : Option Promise :=
  if promise.state ≠ PENDING then
    some promise
  else
    match promise.rejectChannel with
    | none => some { promise with state := REJECTED, rejectChannel := some err }
    | some _ => none

/-- `resetState` (main.go lines 79-81): sets the state back to `PENDING`. -/
def Promise.resetState (promise : Promise) : Promise :=
  { promise with state := PENDING }

/-- `resolve` (main.go lines 91-109): no-op unless `state == PENDING`.  If
the resolution is a `*Promise`, `Await` it; on a non-nil inner error,
delegate to `reject` and return early (never reaching the
`state = FULFILLED` assignment); otherwise send the flattened value.  A
non-promise resolution is sent directly.  After a successful send,
`state = FULFILLED`. -/
def Promise.resolve (promise : Promise) (resolution : GoValue) : Option Promise :=
  if promise.state ≠ PENDING then
    some promise
  else
    match resolution with
    | .promV s rc rjc res er =>
        match (Promise.mk s rc rjc res er).Await with
        | none => none
        | some ((flattenedResult, err), _) =>
            if err ≠ none then
              promise.reject err
            else
              match promise.resolveChannel with
              | none => some { promise with resolveChannel := some flattenedResult,
                                            state := FULFILLED }
              | some _ => none
    | v =>
        match promise.resolveChannel with
        | none => some { promise with resolveChannel := some v, state := FULFILLED }
        | some _ => none

/-- The value an executor panics with: nil, a value implementing `error`
(with its message), or any other value (with its `fmt.Sprint` form). -/
inductive PanicArg where
  | pnil : PanicArg
  | perr : String → PanicArg
  | pother : String → PanicArg
deriving DecidableEq

/-- The result of `recover()` inside `handlePanic`: nil, a non-nil value
implementing `error`, or any other non-nil value. -/
inductive Recovered where
  | rnil : Recovered
  | rerror : String → Recovered
  | rother : String → Recovered
deriving DecidableEq

/-- What `recover()` returns: nil when no panic occurred, and the panic
argument otherwise.  `panic(nil)` also recovers as nil (classic Go
semantics — the assumption visible in the code's own `case nil` arm). -/
def recoverValue : Option PanicArg → Recovered
  | none => .rnil
  | some .pnil => .rnil
  | some (.perr msg) => .rerror msg
  | some (.pother s) => .rother s

/-- `handlePanic` (main.go lines 46-59): guard `e != nil`, then a type
switch.  The `case nil` arm (line 51) can only match when `e` is nil,
which the guard has already excluded, so it is unreachable — mirrored
here by the dead `.rnil` arm inside the match. -/
def Promise.handlePanic (promise : Promise) (e : Recovered) : Option Promise :=
  if e ≠ Recovered.rnil then
    match e with
    | .rnil => promise.reject (some "panic recovery with nil error")
    | .rerror msg => promise.reject (some ("panic recovery with error: " ++ msg))
    | .rother s => promise.reject (some ("panic recovery with unknown error: " ++ s))
  else
    some promise

/-- A single call the executor makes to one of its two callbacks. -/
inductive ExecStep where
  | callResolve : GoValue → ExecStep
  | callReject : GoError → ExecStep

/-- An executor, as data: the sequence of callback invocations it performs,
followed optionally by a panic with the given argument. -/
structure Executor where
  steps : List ExecStep
  panics : Option PanicArg

/-- Runs the executor's callback invocations in order against the promise.
A blocked call (`none`) leaves the goroutine stuck. -/
def runSteps (promise : Promise) : List ExecStep → Option Promise
  | [] => some promise
  | .callResolve v :: rest => (promise.resolve v).bind (fun p => runSteps p rest)
  | .callReject e :: rest => (promise.reject e).bind (fun p => runSteps p rest)

/-- The fresh promise allocated by `New` (main.go lines 29-36): `PENDING`,
both one-slot channels empty, `result` and `err` nil. -/
def freshPromise : Promise :=
  ⟨PENDING, none, none, .nilV, none⟩

/-- `New` (main.go lines 28-44): allocate a fresh promise and run the
executor in a goroutine with `handlePanic` deferred.  If the executor
blocks, the deferred `handlePanic` never runs (the goroutine is stuck). -/
def New (executor : Executor) : Option Promise :=
  (runSteps freshPromise executor.steps).bind
    (fun p => p.handlePanic (recoverValue executor.panics))

/-- `Resolve` (main.go lines 84-88): a `New` whose executor immediately
calls `resolve(value)`. -/
def Resolve (value : GoValue) : Option Promise :=
  New ⟨[.callResolve value], none⟩

/-- `Reject` (main.go lines 62-66): a `New` whose executor immediately
calls `reject(err)`. -/
def Reject (err : GoError) : Option Promise :=
  New ⟨[.callReject err], none⟩

/-- `Then` (main.go lines 114-126): the child's executor selects on the
parent's channels (`resolveChannel` listed first).  On fulfillment it
drains the value, calls the parent's `resetState`, and resolves the child
with `OnFulfill(result)`; on rejection it drains the error and rejects the
child with `OnRejection(err)`.  Returns the updated parent and the child.
The handlers are total Lean functions, so the child's deferred panic
recovery never fires and is omitted. -/
def Promise.Then (promise : Promise) (OnFulfill : GoValue → GoValue)
    (OnRejection : GoError → GoError) : Option (Promise × Promise) :=
  match promise.resolveChannel with
  | some result =>
      let parent := ({ promise with resolveChannel := none }).resetState
      (freshPromise.resolve (OnFulfill result)).map (fun c => (parent, c))
  | none =>
      match promise.rejectChannel with
      | some err =>
          let parent := { promise with rejectChannel := none }
          (freshPromise.reject (OnRejection err)).map (fun c => (parent, c))
      | none => none

/-- `Catch` (main.go lines 131-141): on parent fulfillment, forward the
value unchanged to the child's `resolve`; on parent rejection, reject the
child with `OnRejection(err)`.  No state reset on either branch. -/
def Promise.Catch (promise : Promise) (OnRejection : GoError → GoError) :
    Option (Promise × Promise) :=
  match promise.resolveChannel with
  | some result =>
      let parent := { promise with resolveChannel := none }
      (freshPromise.resolve result).map (fun c => (parent, c))
  | none =>
      match promise.rejectChannel with
      | some err =>
          let parent := { promise with rejectChannel := none }
          (freshPromise.reject (OnRejection err)).map (fun c => (parent, c))
      | none => none

/-- `Finally` (main.go lines 146-156): its `select` lists `rejectChannel`
first; either branch forwards the parent's settlement unchanged, then
calls `onFinally()` for its side effect only (the return value is
discarded, so the callback does not influence the resulting states). -/
def Promise.Finally (promise : Promise) (onFinally : Unit → GoValue) :
    Option (Promise × Promise) :=
  match promise.rejectChannel with
  | some err =>
      let parent := { promise with rejectChannel := none }
      (freshPromise.reject err).map (fun c => let _ := onFinally (); (parent, c))
  | none =>
      match promise.resolveChannel with
      | some result =>
          let parent := { promise with resolveChannel := none }
          (freshPromise.resolve result).map (fun c => let _ := onFinally (); (parent, c))
      | none => none

/-- Composite observation: construct a promise and `Await` it, keeping only
the returned `(value, error)` pair. -/
def awaitResult (constructed : Option Promise) : Option (GoValue × GoError) :=
  constructed.bind (fun p => p.Await.map (fun r => r.1))

/-! Theorems about the embedding. -/

/-- Helper: resolving a fresh promise with a non-promise value sends the
value on `resolveChannel` and sets the state to `FULFILLED`. -/
theorem resolve_fresh_nonpromise (v : GoValue) (hv : v.isPromise = false) :
    freshPromise.resolve v = some ⟨FULFILLED, some v, none, .nilV, none⟩ := by
  cases v <;> first | rfl | simp [GoValue.isPromise] at hv

/-- C2: for every non-promise value `v`, `Resolve(v)` followed by `Await()`
yields the pair `(v, nil)`. -/
theorem Resolve_Await_yields_value (v : GoValue) (hv : v.isPromise = false) :
    awaitResult (Resolve v) = some (v, none) := by
  have h := resolve_fresh_nonpromise v hv
  simp [awaitResult, Resolve, New, runSteps, h, Promise.handlePanic, recoverValue,
    Promise.Await]

/-- C2 witness: instantiation at `v = 5`. -/
theorem Resolve_Await_yields_value_witness :
    GoValue.isPromise (.intV 5) = false ∧
    awaitResult (Resolve (.intV 5)) = some (.intV 5, none) :=
  ⟨rfl, Resolve_Await_yields_value (.intV 5) rfl⟩

/-- C5: on an already-settled promise (state `FULFILLED` or `REJECTED`),
`resolve` and `reject` are silent no-ops: the promise is returned
unchanged, no channel send happens, and no error is surfaced. -/
theorem settled_resolve_reject_noop (promise : Promise) (v : GoValue) (e : GoError)
    (h : promise.state = FULFILLED ∨ promise.state = REJECTED) :
    promise.resolve v = some promise ∧ promise.reject e = some promise := by
  have hne : promise.state ≠ PENDING := by
    rcases h with h | h <;> simp [h, FULFILLED, REJECTED, PENDING]
  exact ⟨by simp [Promise.resolve, hne], by simp [Promise.reject, hne]⟩

/-- C5 witness: a fulfilled promise ignores a late `resolve` and a late
`reject`. -/
theorem settled_resolve_reject_noop_witness :
    (Promise.mk FULFILLED (some (.intV 1)) none .nilV none).resolve (.intV 2)
      = some (Promise.mk FULFILLED (some (.intV 1)) none .nilV none) ∧
    (Promise.mk FULFILLED (some (.intV 1)) none .nilV none).reject (some "late")
      = some (Promise.mk FULFILLED (some (.intV 1)) none .nilV none) :=
  settled_resolve_reject_noop ⟨FULFILLED, some (.intV 1), none, .nilV, none⟩
    (.intV 2) (some "late") (Or.inl rfl)

/-- C4: `Resolve(Resolve(5))` behaves identically to `Resolve(5)`: the two
constructed promises are the very same state, and `Await()` on the outer
one yields `(5, nil)` — never a nested promise value (the buffered channel
item is `intV 5` itself). -/
theorem Resolve_Resolve_flattens :
    Resolve (.intV 5) = some ⟨FULFILLED, some (.intV 5), none, .nilV, none⟩ ∧
    Resolve (Promise.toValue ⟨FULFILLED, some (.intV 5), none, .nilV, none⟩)
      = some ⟨FULFILLED, some (.intV 5), none, .nilV, none⟩ ∧
    awaitResult (Resolve (Promise.toValue ⟨FULFILLED, some (.intV 5), none, .nilV, none⟩))
      = some (.intV 5, none) :=
  ⟨rfl, rfl, rfl⟩

/-- C3: `Resolve(Reject(errX))` settles as rejected with `errX` itself:
the outer promise ends in state `REJECTED` with `errX` on its reject
channel, and `Await()` yields `(nil, errX)` — not a fulfillment with a
promise value. -/
theorem Resolve_of_Reject_rejects (msg : String) :
    Reject (some msg) = some ⟨REJECTED, none, some (some msg), .nilV, none⟩ ∧
    Resolve (Promise.toValue ⟨REJECTED, none, some (some msg), .nilV, none⟩)
      = some ⟨REJECTED, none, some (some msg), .nilV, none⟩ ∧
    awaitResult (Resolve (Promise.toValue ⟨REJECTED, none, some (some msg), .nilV, none⟩))
      = some (.nilV, some msg) :=
  ⟨rfl, rfl, rfl⟩

/-- C1 counterexample: resolving a fresh pending promise with an
already-rejected inner promise leaves the outer promise's state `REJECTED`,
not `FULFILLED` — the claim that `state = Fulfilled` after the
nested-rejection path is false at this input. -/
theorem resolve_nested_rejection_not_fulfilled :
    (freshPromise.resolve
        (Promise.toValue ⟨REJECTED, none, some (some "boom"), .nilV, none⟩)).map
      Promise.state = some REJECTED ∧ REJECTED ≠ FULFILLED :=
  ⟨rfl, by decide⟩

/-- C1 (amended): when `resolve` is called with a value that is itself a
promise and the inner promise has settled as rejected with a non-nil
error, `resolve` delegates to `reject` and returns early: the outer
promise's state field ends up `REJECTED`, and the `FULFILLED` assignment
is never reached on that path. -/
theorem resolve_nested_rejection_rejects (outer inner : Promise) (m : String)
    (h1 : outer.state = PENDING) (h2 : outer.rejectChannel = none)
    (h3 : inner.resolveChannel = none) (h4 : inner.rejectChannel = some (some m)) :
    outer.resolve inner.toValue
      = some { outer with state := REJECTED, rejectChannel := some (some m) } ∧
    REJECTED ≠ FULFILLED := by
  refine ⟨?_, by decide⟩
  simp [Promise.resolve, Promise.toValue, Promise.Await, Promise.reject,
    h1, h2, h3, h4, PENDING]

/-- C1 witness: instantiation of the amended theorem at a fresh outer
promise and a concrete rejected inner promise. -/
theorem resolve_nested_rejection_rejects_witness :
    freshPromise.resolve
        (Promise.toValue ⟨REJECTED, none, some (some "boom"), .nilV, none⟩)
      = some ⟨REJECTED, none, some (some "boom"), .nilV, none⟩ ∧
    REJECTED ≠ FULFILLED :=
  resolve_nested_rejection_rejects freshPromise
    ⟨REJECTED, none, some (some "boom"), .nilV, none⟩ "boom" rfl rfl rfl rfl

/-- C6: evaluation of the three panic shapes.  An executor that panics with
nil leaves the promise `PENDING` with nothing on either channel — no
rejection at all, because `recover()` returns nil and the `e != nil` guard
skips the type switch, so the `case nil` arm producing the fixed
"panic recovery with nil error" message is unreachable.  The other two
shapes do reject as described. -/
theorem handlePanic_shapes :
    New ⟨[], some .pnil⟩ = some ⟨PENDING, none, none, .nilV, none⟩ ∧
    New ⟨[], some (.perr "boom")⟩
      = some ⟨REJECTED, none,
              some (some ("panic recovery with error: " ++ "boom")), .nilV, none⟩ ∧
    New ⟨[], some (.pother "42")⟩
      = some ⟨REJECTED, none,
              some (some ("panic recovery with unknown error: " ++ "42")), .nilV, none⟩ :=
  ⟨rfl, rfl, rfl⟩

/-- C7: `Reject(errX).Then(f, g)` takes the rejection branch: the result is
the same for any two fulfillment handlers (so `f` is never invoked), the
child promise is rejected with exactly `g(errX)`, and `Await()` on the
child returns `(nil, g(errX))` — a nil error precisely when `g` returns
nil. -/
theorem Reject_Then_short_circuit (msg : String) (f f2 : GoValue → GoValue)
    (g : GoError → GoError) :
    Reject (some msg) = some ⟨REJECTED, none, some (some msg), .nilV, none⟩ ∧
    (Promise.mk REJECTED none (some (some msg)) .nilV none).Then f g
      = some (⟨REJECTED, none, none, .nilV, none⟩,
              ⟨REJECTED, none, some (g (some msg)), .nilV, none⟩) ∧
    (Promise.mk REJECTED none (some (some msg)) .nilV none).Then f2 g
      = (Promise.mk REJECTED none (some (some msg)) .nilV none).Then f g ∧
    (Promise.mk REJECTED none (some (g (some msg))) .nilV none).Await
      = some ((.nilV, g (some msg)), ⟨REJECTED, none, none, .nilV, g (some msg)⟩) :=
  ⟨rfl, rfl, rfl, rfl⟩

/-- Helper: a `New` whose executor calls `resolve(v)` with a non-promise
value fulfills the promise, and any subsequent panic recovery is a no-op
because the state is no longer `PENDING`. -/
theorem New_resolve_step (v : GoValue) (hv : v.isPromise = false)
    (pa : Option PanicArg) :
    New ⟨[.callResolve v], pa⟩ = some ⟨FULFILLED, some v, none, .nilV, none⟩ := by
  have hres := resolve_fresh_nonpromise v hv
  rcases pa with _ | (_ | m | s) <;>
    simp [New, runSteps, hres, Promise.handlePanic, recoverValue, Promise.reject,
      PENDING, FULFILLED]

/-- Helper: a `New` whose executor calls `reject(e)` rejects the promise,
and any subsequent panic recovery is a no-op because the state is no
longer `PENDING`. -/
theorem New_reject_step (e : GoError) (pa : Option PanicArg) :
    New ⟨[.callReject e], pa⟩ = some ⟨REJECTED, none, some e, .nilV, none⟩ := by
  rcases pa with _ | (_ | m | s) <;>
    simp [New, runSteps, Promise.reject, Promise.handlePanic, recoverValue,
      freshPromise, PENDING, REJECTED]

/-- C10: if the executor first settles the promise and then panics, the
panic-derived rejection attempted by `handlePanic` is dropped by the
`state != PENDING` guard: the result is identical to the same executor
without the panic, and `Await()` still delivers the original
value/error. -/
theorem settle_then_panic_keeps_first_settlement (v : GoValue) (e : GoError)
    (a : PanicArg) (hv : v.isPromise = false) :
    New ⟨[.callResolve v], some a⟩ = New ⟨[.callResolve v], none⟩ ∧
    New ⟨[.callReject e], some a⟩ = New ⟨[.callReject e], none⟩ ∧
    awaitResult (New ⟨[.callResolve v], some a⟩) = some (v, none) ∧
    awaitResult (New ⟨[.callReject e], some a⟩) = some (.nilV, e) := by
  have h1 := New_resolve_step v hv (some a)
  have h2 := New_resolve_step v hv none
  have h3 := New_reject_step e (some a)
  have h4 := New_reject_step e none
  refine ⟨h1.trans h2.symm, h3.trans h4.symm, ?_, ?_⟩
  · rw [h1]; simp [awaitResult, Promise.Await]
  · rw [h3]; simp [awaitResult, Promise.Await]

/-- C10 witness: a resolve-then-panic and a reject-then-panic executor at
concrete values. -/
theorem settle_then_panic_keeps_first_settlement_witness :
    GoValue.isPromise (.intV 2) = false ∧
    New ⟨[.callResolve (.intV 2)], some (.perr "kaboom")⟩
      = New ⟨[.callResolve (.intV 2)], none⟩ ∧
    awaitResult (New ⟨[.callReject (some "bad")], some (.perr "kaboom")⟩)
      = some (.nilV, some "bad") :=
  ⟨rfl, (settle_then_panic_keeps_first_settlement (.intV 2) (some "bad")
          (.perr "kaboom") rfl).1,
    (settle_then_panic_keeps_first_settlement (.intV 2) (some "bad")
          (.perr "kaboom") rfl).2.2.2⟩

/-- C8: `Then` resets the parent's state to `PENDING` on the fulfillment
branch (immediately before resolving the child); on the rejection branch
the parent's state is unchanged, and `Catch` and `Finally` leave the
parent's state unchanged on every branch. -/
theorem Then_resets_state_only_on_fulfill (promise parent child : Promise)
    (v : GoValue) (f : GoValue → GoValue) (g : GoError → GoError)
    (onF : Unit → GoValue) :
    (promise.resolveChannel = some v →
       promise.Then f g = some (parent, child) → parent.state = PENDING) ∧
    (promise.resolveChannel = none →
       promise.Then f g = some (parent, child) → parent.state = promise.state) ∧
    (promise.Catch g = some (parent, child) → parent.state = promise.state) ∧
    (promise.Finally onF = some (parent, child) → parent.state = promise.state) := by
  refine ⟨?_, ?_, ?_, ?_⟩
  · intro h1 h2
    unfold Promise.Then at h2
    rw [h1] at h2
    simp only [Option.map_eq_some'] at h2
    obtain ⟨c, hc, hpair⟩ := h2
    injection hpair with hp hc2
    subst hp
    rfl
  · intro h1 h2
    unfold Promise.Then at h2
    rw [h1] at h2
    cases hr : promise.rejectChannel with
    | none => rw [hr] at h2; simp at h2
    | some e2 =>
        rw [hr] at h2
        simp only [Option.map_eq_some'] at h2
        obtain ⟨c, hc, hpair⟩ := h2
        injection hpair with hp hc2
        subst hp
        rfl
  · intro h2
    unfold Promise.Catch at h2
    cases hr : promise.resolveChannel with
    | some r =>
        rw [hr] at h2
        simp only [Option.map_eq_some'] at h2
        obtain ⟨c, hc, hpair⟩ := h2
        injection hpair with hp hc2
        subst hp
        rfl
    | none =>
        rw [hr] at h2
        cases hj : promise.rejectChannel with
        | none => rw [hj] at h2; simp at h2
        | some e2 =>
            rw [hj] at h2
            simp only [Option.map_eq_some'] at h2
            obtain ⟨c, hc, hpair⟩ := h2
            injection hpair with hp hc2
            subst hp
            rfl
  · intro h2
    unfold Promise.Finally at h2
    cases hj : promise.rejectChannel with
    | some e2 =>
        rw [hj] at h2
        simp only [Option.map_eq_some'] at h2
        obtain ⟨c, hc, hpair⟩ := h2
        injection hpair with hp hc2
        subst hp
        rfl
    | none =>
        rw [hj] at h2
        cases hr : promise.resolveChannel with
        | none => rw [hr] at h2; simp at h2
        | some r =>
            rw [hr] at h2
            simp only [Option.map_eq_some'] at h2
            obtain ⟨c, hc, hpair⟩ := h2
            injection hpair with hp hc2
            subst hp
            rfl

/-- C8 witness: four instantiations — `Then` on a fulfilled parent (state
reset to `PENDING`), `Then` on a rejected parent, `Catch` on a fulfilled
parent, and `Finally` on a rejected parent (state unchanged). -/
theorem Then_resets_state_only_on_fulfill_witness :
    (Promise.mk PENDING none none .nilV none).state = PENDING ∧
    (Promise.mk REJECTED none none .nilV none).state
      = (Promise.mk REJECTED none (some (some "e")) .nilV none).state ∧
    (Promise.mk FULFILLED none none .nilV none).state
      = (Promise.mk FULFILLED (some (.intV 7)) none .nilV none).state ∧
    (Promise.mk REJECTED none none .nilV none).state
      = (Promise.mk REJECTED none (some (some "e")) .nilV none).state :=
  ⟨(Then_resets_state_only_on_fulfill ⟨FULFILLED, some (.intV 3), none, .nilV, none⟩
      ⟨PENDING, none, none, .nilV, none⟩ ⟨FULFILLED, some (.intV 3), none, .nilV, none⟩
      (.intV 3) (fun x => x) (fun x => x) (fun _ => .nilV)).1 rfl rfl,
   (Then_resets_state_only_on_fulfill ⟨REJECTED, none, some (some "e"), .nilV, none⟩
      ⟨REJECTED, none, none, .nilV, none⟩ ⟨REJECTED, none, some (some "e"), .nilV, none⟩
      .nilV (fun x => x) (fun x => x) (fun _ => .nilV)).2.1 rfl rfl,
   (Then_resets_state_only_on_fulfill ⟨FULFILLED, some (.intV 7), none, .nilV, none⟩
      ⟨FULFILLED, none, none, .nilV, none⟩ ⟨FULFILLED, some (.intV 7), none, .nilV, none⟩
      .nilV (fun x => x) (fun x => x) (fun _ => .nilV)).2.2.1 rfl,
   (Then_resets_state_only_on_fulfill ⟨REJECTED, none, some (some "e"), .nilV, none⟩
      ⟨REJECTED, none, none, .nilV, none⟩ ⟨REJECTED, none, some (some "e"), .nilV, none⟩
      .nilV (fun x => x) (fun x => x) (fun _ => .nilV)).2.2.2 rfl⟩

/-- C9 counterexample: `Reject("boom").Catch(handler returning nil)`
produces a child promise whose state is `REJECTED`, not `FULFILLED` — the
claim that the combinator's promise settles as fulfilled is false at this
input. -/
theorem Catch_nil_handler_still_rejected :
    (Reject (some "boom")).bind
        (fun p => (p.Catch (fun _ => none)).map (fun pc => pc.2.state))
      = some REJECTED ∧ REJECTED ≠ FULFILLED :=
  ⟨rfl, by decide⟩

/-- C9 (amended): when a reject handler in the chain returns nil, the error
is swallowed: the combinator's promise carries a nil error on its reject
channel, `Await()` on it observes `(nil, nil)`, and a promise chained
after it forwards the nil error the same way — but these downstream
promises still settle through the reject path with state `REJECTED`, not
as fulfilled. -/
theorem reject_handler_nil_swallows_error (promise parent child : Promise)
    (e : GoError) (g : GoError → GoError) (onF : Unit → GoValue)
    (h1 : promise.resolveChannel = none) (h2 : promise.rejectChannel = some e)
    (hg : g e = none) (h : promise.Catch g = some (parent, child)) :
    child.state = REJECTED ∧ child.rejectChannel = some none ∧
    child.Await = some ((.nilV, none), ⟨REJECTED, none, none, .nilV, none⟩) ∧
    child.Finally onF
      = some (⟨REJECTED, none, none, .nilV, none⟩,
              ⟨REJECTED, none, some none, .nilV, none⟩) := by
  unfold Promise.Catch at h
  simp only [h1, h2, Option.map_eq_some'] at h
  obtain ⟨c, hc, hpair⟩ := h
  rw [hg] at hc
  rw [show freshPromise.reject none
        = some (⟨REJECTED, none, some none, .nilV, none⟩ : Promise) from rfl] at hc
  injection hc with hc'
  injection hpair with hp hc2
  subst hc'
  subst hc2
  exact ⟨rfl, rfl, rfl, rfl⟩

/-- C9 witness: instantiation at `Reject("boom").Catch(fun _ => nil)` with
a `Finally` chained after it. -/
theorem reject_handler_nil_swallows_error_witness :
    (Promise.mk REJECTED none (some none) .nilV none).state = REJECTED ∧
    (Promise.mk REJECTED none (some none) .nilV none).rejectChannel = some none ∧
    (Promise.mk REJECTED none (some none) .nilV none).Await
      = some ((.nilV, none), ⟨REJECTED, none, none, .nilV, none⟩) ∧
    (Promise.mk REJECTED none (some none) .nilV none).Finally (fun _ => .nilV)
      = some (⟨REJECTED, none, none, .nilV, none⟩,
              ⟨REJECTED, none, some none, .nilV, none⟩) :=
  reject_handler_nil_swallows_error
    ⟨REJECTED, none, some (some "boom"), .nilV, none⟩
    ⟨REJECTED, none, none, .nilV, none⟩
    ⟨REJECTED, none, some none, .nilV, none⟩
    (some "boom") (fun _ => none) (fun _ => .nilV) rfl rfl rfl rfl
